import Mathlib

set_option autoImplicit false

/-!
Shallow embedding of the django_h2 stream-multiplexing core:
`src/django_h2/base_protocol.py` (BaseH2Protocol, BaseStream) and
`src/django_h2/protocol.py` (Stream, DjangoH2Protocol).

Bytes are modelled as `Nat`, byte strings as `List Nat`.  Calls into the
external codec (h2) and the event loop (asyncio) are recorded as effect
logs on the state: frames explicitly written, django signals sent,
`task.cancel()` calls and `asyncio.create_task` calls, each identified by
stream id.  Python exceptions that the embedded code can raise are
modelled with `Except String`.
-/

namespace DjangoH2

/-- Error codes used by the embedded code (h2.errors.ErrorCodes). -/
inductive ErrorCode where
  | refusedStream
  | protocolError
  deriving DecidableEq, Repr

/-- Frames the embedded code writes to the transport explicitly. -/
inductive Frame where
  | rstStream (streamId : Nat) (err : ErrorCode)
  | goAway (lastStreamId : Nat)
  deriving DecidableEq, Repr

/-- Django signals sent by the embedded code, keyed by stream id. -/
inductive Signal where
  | streamStarted (streamId : Nat)
  | requestException (streamId : Nat)
  deriving DecidableEq, Repr

/-- State of one `protocol.Stream`, together with the codec-side
per-stream inbound flow-control window (`inboundWindow`), which the
embedded code can only change through explicit codec calls.
`task = some d` models `self.task` holding a task whose `done()` is `d`;
`requestBody = none` models `self.request_body = None`. -/
structure StreamSt where
  streamId : Nat
  requestHeaders : List (String × String)
  maxRequestSize : Nat
  bytesReceived : Nat := 0
  requestBody : Option (List Nat) := some []
  task : Option Bool := none
  streaming : Bool := false
  flowControlFuture : Bool := false
  closeWaiter : Bool := false
  inboundWindow : Int
  deriving DecidableEq, Repr

/-- State of one `DjangoH2Protocol` connection: the streamId → Stream
dict (an ordered association list, as a Python dict), the `alive` flag,
the codec-side inbound connection window, and the effect logs. -/
structure ProtocolSt where
  streams : List (Nat × StreamSt) := []
  alive : Bool := true
  maxRequestSize : Nat
  initialWindowSize : Int
  connInWindow : Int
  highestInboundStreamId : Nat := 0
  frames : List Frame := []
  signalLog : List Signal := []
  cancelLog : List Nat := []
  taskLog : List Nat := []
  waitShutdownScheduled : Bool := false
  deriving DecidableEq, Repr

/-- Python dict lookup `d[k]` on the ordered association list. -/
def dictGet {α : Type} (k : Nat) : List (Nat × α) → Option α
  | [] => none
  | (k1, v) :: rest => if k1 = k then some v else dictGet k rest

/-- Python dict assignment `d[k] = v`: replace in place, else append. -/
def dictInsert {α : Type} (k : Nat) (v : α) : List (Nat × α) → List (Nat × α)
  | [] => [(k, v)]
  | (k1, v1) :: rest =>
    if k1 = k then (k, v) :: rest else (k1, v1) :: dictInsert k v rest

/-- Python dict removal `d.pop(k)`: drop the binding of `k`. -/
def dictErase {α : Type} (k : Nat) : List (Nat × α) → List (Nat × α)
  | [] => []
  | (k1, v1) :: rest =>
    if k1 = k then dictErase k rest else (k1, v1) :: dictErase k rest

/-!
## BaseStream.wait_for_flow_control (base_protocol.py)

The loop body reads `conn.local_flow_control_window(stream_id)`; the
successive values it reads (one per iteration, i.e. one per resolution
of the flow-control future) are the `readings` list.  The function
returns the first strictly positive reading; if the list is exhausted
the caller is still suspended, modelled as `none`.
-/

/-- Embedding of `BaseStream.wait_for_flow_control`: return the window
on the first iteration whose reading is `> 0`, re-suspend otherwise. -/
def wait_for_flow_control : List Int → Option Int
  | [] => none
  | w :: rest => if 0 < w then some w else wait_for_flow_control rest

/-!
## BaseStream.send_data (base_protocol.py)

`windows` is the sequence of values returned by the successive
`await self.wait_for_flow_control()` calls; `closedAt k` tells whether
`conn.send_data` raises `StreamClosedError`/`ProtocolError` at step `k`
(the codec is external, so this is an oracle).  Each loop iteration is
recorded as a `SendStep`: the window observed, the remaining byte count
before the chunk, the chunk handed to the codec and the end_stream flag
passed with it.
-/

/-- One iteration of the `send_data` while-loop as observed from outside. -/
structure SendStep where
  window : Nat
  remaining : Nat
  chunk : List Nat
  endStreamFlag : Bool
  deriving DecidableEq, Repr

/-- Embedding of the while-loop of `BaseStream.send_data`.  Returns the
recorded steps, the bytes left unsent (nonempty only if the codec
reported the stream closed or the windows ran out), and the final
`bytes_send` counter. -/
def sendDataLoop (maxFrame : Nat) (endStream : Bool) (closedAt : Nat → Bool) :
    List Nat → Nat → List Nat → Nat → List SendStep × List Nat × Nat
  | [], _, data, bytesSend => ([], data, bytesSend)
  | _ :: _, _, [], bytesSend => ([], [], bytesSend)
  | w :: ws, k, d :: ds, bytesSend =>
    let data := d :: ds
    let chunkSize := min w (min data.length maxFrame)
    let step : SendStep :=
      ⟨w, data.length, data.take chunkSize, endStream && (chunkSize == data.length)⟩
    if closedAt k then
      ([step], data, bytesSend)
    else
      let r := sendDataLoop maxFrame endStream closedAt ws (k + 1)
        (data.drop chunkSize) (bytesSend + chunkSize)
      (step :: r.1, r.2.1, r.2.2)

/-- Embedding of `BaseStream.send_data`: the first component records
whether the `if not data and end_stream` branch called `end_stream()`
immediately; the rest is the while-loop. -/
def send_data (maxFrame : Nat) (endStream : Bool) (closedAt : Nat → Bool)
    (windows : List Nat) (data : List Nat) (bytesSend : Nat) :
    Bool × List SendStep × List Nat × Nat :=
  (data.isEmpty && endStream, sendDataLoop maxFrame endStream closedAt windows 0 data bytesSend)

/-!
## protocol.Stream and DjangoH2Protocol operations

Each Python method becomes a state transformer.  Methods that can raise
a Python exception past their own body return `Except String _`.
-/

/-- Embedding of `Stream.__init__` (protocol.py): a fresh stream with an
empty body buffer; `maxRequestSize` copies
`settings.FILE_UPLOAD_MAX_MEMORY_SIZE`, `inboundWindow` is the codec's
initial per-stream inbound window. -/
def newStream (streamId : Nat) (headers : List (String × String))
    (maxRequestSize : Nat) (inboundWindow : Int) : StreamSt :=
  { streamId := streamId
    requestHeaders := headers
    maxRequestSize := maxRequestSize
    inboundWindow := inboundWindow }

/-- Embedding of `Stream.close` (protocol.py): resolve the close waiter,
cancel a not-done task (`self.task.cancel(); self.task = None`), send a
`request_exception` signal when an exception is given, then
`BaseStream.close`: cancel the flow-control future.  Returns the closed
stream, the signals sent, and the stream ids whose task was cancelled. -/
def streamClose (s : StreamSt) (exc : Bool) : StreamSt × List Signal × List Nat :=
  let s1 : StreamSt := { s with closeWaiter := false }
  let tc : StreamSt × List Nat :=
    match s1.task with
    | some false => ({ s1 with task := none }, [s1.streamId])
    | _ => (s1, [])
  let sigs : List Signal := if exc then [Signal.requestException s.streamId] else []
  ({ tc.1 with flowControlFuture := false }, sigs, tc.2)

/-- The `for stream in self.streams.values(): stream.close(exc)` loop of
`BaseH2Protocol.connection_lost`: collect all signals and cancellations. -/
def closeAll (exc : Bool) : List (Nat × StreamSt) → List Signal × List Nat
  | [] => ([], [])
  | (_, s) :: rest =>
    let c := streamClose s exc
    let r := closeAll exc rest
    (c.2.1 ++ r.1, c.2.2 ++ r.2)

/-- Embedding of `BaseH2Protocol.connection_lost`: close every stream
with the given exception flag, then clear the mapping. -/
def connection_lost (p : ProtocolSt) (exc : Bool) : ProtocolSt :=
  let r := closeAll exc p.streams
  { p with streams := []
           signalLog := p.signalLog ++ r.1
           cancelLog := p.cancelLog ++ r.2 }

/-- Embedding of `BaseH2Protocol.stream_reset`: pop the stream and close
it; a missing stream id is a no-op (`except KeyError: pass`). -/
def stream_reset (p : ProtocolSt) (streamId : Nat) : ProtocolSt :=
  match dictGet streamId p.streams with
  | none => p
  | some s =>
    let c := streamClose s false
    { p with streams := dictErase streamId p.streams
             signalLog := p.signalLog ++ c.2.1
             cancelLog := p.cancelLog ++ c.2.2 }

/-- Embedding of `Stream.event_receive_data` (protocol.py), in the
context of its protocol: over the body limit, reset the stream with
`REFUSED_STREAM` and remove it via `protocol.stream_reset`; otherwise
append to the body buffer, bump `bytes_received`, and credit the chunk
length to the connection-level flow-control window
(`conn.increment_flow_control_window(len(data))`, connection-level
because no stream id is passed).  Writing to a `None` body buffer is a
Python `AttributeError`. -/
def event_receive_data (p : ProtocolSt) (streamId : Nat) (s : StreamSt)
    (data : List Nat) : Except String ProtocolSt :=
  if s.maxRequestSize < s.bytesReceived + data.length then
    let p1 : ProtocolSt :=
      { p with frames := p.frames ++ [Frame.rstStream streamId ErrorCode.refusedStream] }
    .ok (stream_reset p1 streamId)
  else
    match s.requestBody with
    | none => .error "AttributeError: NoneType object has no attribute write"
    | some body =>
      let s1 : StreamSt :=
        { s with requestBody := some (body ++ data)
                 bytesReceived := s.bytesReceived + data.length }
      .ok { p with streams := dictInsert streamId s1 p.streams
                   connInWindow := p.connInWindow + data.length }

/-- Embedding of `BaseH2Protocol.receive_data`: route to the stream; on
a missing stream id, reset it with `PROTOCOL_ERROR`. -/
def receive_data (p : ProtocolSt) (streamId : Nat) (data : List Nat) :
    Except String ProtocolSt :=
  match dictGet streamId p.streams with
  | none =>
    .ok { p with frames := p.frames ++ [Frame.rstStream streamId ErrorCode.protocolError] }
  | some s => event_receive_data p streamId s data

/-- Embedding of `Stream.event_stream_complete` (protocol.py):
`request.stream_complete(self.request_body)` reads the buffer
(`body.seek(0)` raises `AttributeError` when the buffer was already
freed to `None`), the buffer is freed, and one handler task is created.
Returns the new stream state and the number of tasks created. -/
def event_stream_complete (s : StreamSt) : Except String (StreamSt × Nat) :=
  match s.requestBody with
  | none => .error "AttributeError: NoneType object has no attribute seek"
  | some _ => .ok ({ s with requestBody := none, task := some false }, 1)

/-- Embedding of `BaseH2Protocol.stream_complete`: dispatch the
stream-ended event; a missing stream id is a no-op (`except KeyError`).
`create_task` calls are appended to the task log. -/
def stream_complete (p : ProtocolSt) (streamId : Nat) : Except String ProtocolSt :=
  match dictGet streamId p.streams with
  | none => .ok p
  | some s =>
    (event_stream_complete s).map fun r =>
      { p with streams := dictInsert streamId r.1 p.streams
               taskLog := p.taskLog ++ List.replicate r.2 streamId }

/-- Embedding of the `finally: self.close()` finalization of
`Stream.handle_task`: the stream is closed (with a `request_exception`
signal already sent separately when the handler raised); nothing removes
the stream from `protocol.streams` on this path. -/
def handle_task_finish (p : ProtocolSt) (streamId : Nat) : ProtocolSt :=
  match dictGet streamId p.streams with
  | none => p
  | some s =>
    let c := streamClose s false
    { p with streams := dictInsert streamId c.1 p.streams
             signalLog := p.signalLog ++ c.2.1
             cancelLog := p.cancelLog ++ c.2.2 }

/-- Embedding of `BaseH2Protocol.request_received`: register a fresh
stream under its id (Python dict assignment) and send the
`stream_started` signal fired by `Stream.__init__`; the codec's
`highest_inbound_stream_id` advances. -/
def baseRequestReceived (p : ProtocolSt) (streamId : Nat)
    (headers : List (String × String)) : ProtocolSt :=
  let s := newStream streamId headers p.maxRequestSize p.initialWindowSize
  { p with streams := dictInsert streamId s p.streams
           signalLog := p.signalLog ++ [Signal.streamStarted streamId]
           highestInboundStreamId := max p.highestInboundStreamId streamId }

/-- Embedding of `DjangoH2Protocol.request_received`: the event is
processed only while `alive` (RFC 7540 §6.8, after GOAWAY). -/
def request_received (p : ProtocolSt) (streamId : Nat)
    (headers : List (String × String)) : ProtocolSt :=
  if p.alive then baseRequestReceived p streamId headers else p

/-- The `for stream in [s for s in self.streams.values() if s.streaming]:
stream.task.cancel()` loop of `DjangoH2Protocol.graceful_shutdown`, run
on the already-filtered list in iteration order.  `task.cancel()` on a
done task is a plain call (Python returns False), but on an empty task
slot (`task = None`) it raises `AttributeError`, which aborts the loop:
later streams are not cancelled.  Returns the cancelled stream ids, or,
on the exception, the ids cancelled before it together with the error. -/
def cancelStreaming : List (Nat × StreamSt) → Except (List Nat × String) (List Nat)
  | [] => .ok []
  | (_, s) :: rest =>
    match s.task with
    | none => .error ([], "AttributeError: NoneType object has no attribute cancel")
    | some _ =>
      match cancelStreaming rest with
      | .ok ids => .ok (s.streamId :: ids)
      | .error r => .error (s.streamId :: r.1, r.2)

/-- Embedding of `DjangoH2Protocol.graceful_shutdown`: write a GOAWAY
frame carrying the highest inbound stream id directly to the transport,
clear `alive`, then call `task.cancel()` for every currently streaming
stream in iteration order (the streams themselves stay registered).
When every such cancel call succeeds, `asyncio.create_task(self.wait_shutdown())`
is scheduled; when one raises `AttributeError` (empty task slot) the
exception propagates, the remaining streaming streams are not cancelled
and `wait_shutdown` is never scheduled.  The second component is the
exception that escaped, if any. -/
def graceful_shutdown (p : ProtocolSt) : ProtocolSt × Option String :=
  let p1 : ProtocolSt :=
    { p with frames := p.frames ++ [Frame.goAway p.highestInboundStreamId]
             alive := false }
  match cancelStreaming (p1.streams.filter fun e => e.2.streaming) with
  | .ok ids =>
    ({ p1 with cancelLog := p1.cancelLog ++ ids, waitShutdownScheduled := true }, none)
  | .error r =>
    ({ p1 with cancelLog := p1.cancelLog ++ r.1 }, some r.2)

/-- Embedding of `DjangoH2Protocol.wait_shutdown`: `observations` is the
sequence of values of `self.streams` seen at each evaluation of the
`while self.streams` guard (one per resolved stream await).  Returns
`some i` when `transport.close()` runs at guard evaluation `i`, `none`
while the loop is still waiting. -/
def wait_shutdown : List (List (Nat × StreamSt)) → Option Nat
  | [] => none
  | obs :: rest =>
    if obs.isEmpty then some 0 else (wait_shutdown rest).map Nat.succ

/-! ## Helper lemmas about the dict operations -/

theorem dictGet_dictInsert_self {α : Type} (k : Nat) (v : α) (l : List (Nat × α)) :
    dictGet k (dictInsert k v l) = some v := by
  induction l with
  | nil => simp [dictGet, dictInsert]
  | cons e rest ih =>
    obtain ⟨k1, v1⟩ := e
    by_cases h : k1 = k
    · simp [dictGet, dictInsert, h]
    · simp [dictGet, dictInsert, h, ih]

theorem dictGet_dictErase_self {α : Type} (k : Nat) (l : List (Nat × α)) :
    dictGet k (dictErase k l) = none := by
  induction l with
  | nil => simp [dictGet, dictErase]
  | cons e rest ih =>
    obtain ⟨k1, v1⟩ := e
    by_cases h : k1 = k
    · simp [dictErase, h, ih]
    · simp [dictGet, dictErase, h, ih]

/-- Every `some` result of `wait_for_flow_control` is strictly positive. -/
theorem wait_for_flow_control_pos :
    ∀ (readings : List Int) (w : Int), wait_for_flow_control readings = some w → 0 < w
  | [], w, h => by simp [wait_for_flow_control] at h
  | v :: rest, w, h => by
    by_cases hv : 0 < v
    · simp [wait_for_flow_control, hv] at h
      omega
    · simp [wait_for_flow_control, hv] at h
      exact wait_for_flow_control_pos rest w h

end DjangoH2

namespace DjangoH2

/-! ## Claim theorems -/

/-- C10: whenever `wait_for_flow_control` returns a window value, that
value is strictly positive; a reading that is still `≤ 0` when the
waiter is resolved makes the caller re-suspend (the reading is skipped
and the wait continues); hence no empty chunk is computed while bytes
remain to send. -/
theorem wait_for_flow_control_returns_positive (readings : List Int) (w : Int)
    (v : Int) (rest : List Int) (data : List Nat) (maxFrame : Nat)
    (hret : wait_for_flow_control readings = some w)
    (hv : v ≤ 0) (hd : data ≠ []) (hf : 0 < maxFrame) :
    0 < w ∧
    wait_for_flow_control (v :: rest) = wait_for_flow_control rest ∧
    0 < min w.toNat (min data.length maxFrame) := by
  have hw : 0 < w := wait_for_flow_control_pos readings w hret
  refine ⟨hw, ?_, ?_⟩
  · simp [wait_for_flow_control, not_lt.mpr hv]
  · have hlen : 0 < data.length := List.length_pos.mpr hd
    have : 0 < w.toNat := by omega
    omega

/-- Witness for C10 at a concrete input: readings `[-2, 0, 5]`. -/
theorem wait_for_flow_control_returns_positive_witness :
    0 < (5 : Int) ∧
    wait_for_flow_control ([-7, 3] : List Int) = wait_for_flow_control [3] ∧
    0 < min (5 : Int).toNat (min [10, 20, 30].length 16384) :=
  wait_for_flow_control_returns_positive [-2, 0, 5] 5 (-7) [3] [10, 20, 30] 16384
    (by decide) (by decide) (by decide) (by decide)

/-- C6: while `alive = false`, a request-headers event is ignored: the
protocol state (in particular the stream mapping) is unchanged and no
stream is constructed. -/
theorem request_received_ignored_when_dead (p : ProtocolSt) (streamId : Nat)
    (headers : List (String × String)) (h : p.alive = false) :
    request_received p streamId headers = p ∧
    (request_received p streamId headers).streams = p.streams := by
  simp [request_received, h]

/-- Concrete protocol state used by the C6 witness: one live stream,
connection already draining. -/
def pDead : ProtocolSt :=
  { streams := [(1, newStream 1 [] 4 4)]
    alive := false
    maxRequestSize := 4
    initialWindowSize := 4
    connInWindow := 4 }

/-- Witness for C6 at a concrete input. -/
theorem request_received_ignored_when_dead_witness :
    request_received pDead 3 [(":path", "/x")] = pDead ∧
    (request_received pDead 3 [(":path", "/x")]).streams = pDead.streams :=
  request_received_ignored_when_dead pDead 3 [(":path", "/x")] rfl

/-- C3: completing the same stream twice schedules exactly one handler
task: the first `event_stream_complete` appends exactly one
`create_task` call to the task log, and the second call fails with the
`AttributeError` raised by `request.stream_complete(None)` before any
`create_task`, so the task log no longer grows. -/
theorem stream_complete_single_task (p : ProtocolSt) (streamId : Nat)
    (s : StreamSt) (body : List Nat)
    (h1 : dictGet streamId p.streams = some s)
    (h2 : s.requestBody = some body) :
    ∃ p1, stream_complete p streamId = .ok p1 ∧
      p1.taskLog = p.taskLog ++ [streamId] ∧
      ∃ e, stream_complete p1 streamId = .error e := by
  refine ⟨{ p with
      streams := dictInsert streamId { s with requestBody := none, task := some false } p.streams
      taskLog := p.taskLog ++ List.replicate 1 streamId }, ?_, ?_, ?_⟩
  · simp [stream_complete, h1, event_stream_complete, h2, Except.map]
  · simp
  · refine ⟨"AttributeError: NoneType object has no attribute seek", ?_⟩
    simp [stream_complete, dictGet_dictInsert_self, event_stream_complete, Except.map]

/-- Concrete protocol state used by the C3 witness: one stream with a
three-byte body buffer. -/
def pC3 : ProtocolSt :=
  { streams := [(1, { newStream 1 [] 4 4 with requestBody := some [7, 8, 9] })]
    maxRequestSize := 4
    initialWindowSize := 4
    connInWindow := 4 }

/-- Witness for C3 at a concrete input. -/
theorem stream_complete_single_task_witness :
    ∃ p1, stream_complete pC3 1 = .ok p1 ∧
      p1.taskLog = pC3.taskLog ++ [1] ∧
      ∃ e, stream_complete p1 1 = .error e :=
  stream_complete_single_task pC3 1 { newStream 1 [] 4 4 with requestBody := some [7, 8, 9] }
    [7, 8, 9] (by decide) rfl

/-- C5: an accepted inbound chunk credits exactly its length to the
connection-level flow-control window and leaves the stream-level
inbound window unchanged; the chunk is appended to the body buffer and
the bytes-received counter advances by the chunk length. -/
theorem receive_data_window_accounting (p : ProtocolSt) (streamId : Nat)
    (s : StreamSt) (body data : List Nat)
    (h1 : dictGet streamId p.streams = some s)
    (h2 : s.requestBody = some body)
    (h3 : s.bytesReceived + data.length ≤ s.maxRequestSize) :
    ∃ p1, receive_data p streamId data = .ok p1 ∧
      p1.connInWindow = p.connInWindow + data.length ∧
      ∃ s1, dictGet streamId p1.streams = some s1 ∧
        s1.inboundWindow = s.inboundWindow ∧
        s1.requestBody = some (body ++ data) ∧
        s1.bytesReceived = s.bytesReceived + data.length := by
  refine ⟨{ p with
      streams := dictInsert streamId
        { s with requestBody := some (body ++ data)
                 bytesReceived := s.bytesReceived + data.length } p.streams
      connInWindow := p.connInWindow + data.length }, ?_, ?_, ?_⟩
  · simp [receive_data, h1, event_receive_data, Nat.not_lt.mpr h3, h2]
  · simp
  · exact ⟨{ s with requestBody := some (body ++ data)
                    bytesReceived := s.bytesReceived + data.length },
      dictGet_dictInsert_self streamId _ _, rfl, rfl, rfl⟩

/-- Concrete protocol state used by the C5 witness. -/
def pC5 : ProtocolSt :=
  { streams := [(1, { newStream 1 [] 4 4 with requestBody := some [1], bytesReceived := 1 })]
    maxRequestSize := 4
    initialWindowSize := 4
    connInWindow := 10 }

/-- Witness for C5 at a concrete input: one two-byte chunk accepted. -/
theorem receive_data_window_accounting_witness :
    ∃ p1, receive_data pC5 1 [2, 3] = .ok p1 ∧
      p1.connInWindow = pC5.connInWindow + ([2, 3] : List Nat).length ∧
      ∃ s1, dictGet 1 p1.streams = some s1 ∧
        s1.inboundWindow = (4 : Int) ∧
        s1.requestBody = some ([1] ++ [2, 3]) ∧
        s1.bytesReceived = 1 + ([2, 3] : List Nat).length :=
  receive_data_window_accounting pC5 1
    { newStream 1 [] 4 4 with requestBody := some [1], bytesReceived := 1 }
    [1] [2, 3] (by decide) rfl (by decide)

/-- C4: an inbound chunk is rejected (stream reset with
`REFUSED_STREAM` and removed from the mapping) exactly when
`bytesReceived + len(chunk)` exceeds the body limit; at or below the
limit the chunk is accepted, no reset frame is written and the stream
stays registered.  After a rejection a stream-ended event for that id is
a no-op, so no handler task is ever scheduled for the rejected stream. -/
theorem receive_data_body_limit (p : ProtocolSt) (streamId : Nat)
    (s : StreamSt) (body data : List Nat)
    (h1 : dictGet streamId p.streams = some s)
    (h2 : s.requestBody = some body) :
    ∃ p1, receive_data p streamId data = .ok p1 ∧
      (s.maxRequestSize < s.bytesReceived + data.length →
        p1.frames = p.frames ++ [Frame.rstStream streamId ErrorCode.refusedStream] ∧
        dictGet streamId p1.streams = none ∧
        p1.taskLog = p.taskLog ∧
        stream_complete p1 streamId = .ok p1) ∧
      (s.bytesReceived + data.length ≤ s.maxRequestSize →
        p1.frames = p.frames ∧
        ∃ s1, dictGet streamId p1.streams = some s1 ∧
          s1.bytesReceived = s.bytesReceived + data.length) := by
  by_cases hover : s.maxRequestSize < s.bytesReceived + data.length
  · refine ⟨stream_reset
      { p with frames := p.frames ++ [Frame.rstStream streamId ErrorCode.refusedStream] }
      streamId, ?_, ?_, ?_⟩
    · simp [receive_data, h1, event_receive_data, hover]
    · intro _
      refine ⟨?_, ?_, ?_, ?_⟩
      · simp [stream_reset, h1]
      · simp [stream_reset, h1, dictGet_dictErase_self]
      · simp [stream_reset, h1]
      · simp [stream_complete, stream_reset, h1, dictGet_dictErase_self]
    · intro hle
      omega
  · have hle : s.bytesReceived + data.length ≤ s.maxRequestSize := by omega
    refine ⟨{ p with
        streams := dictInsert streamId
          { s with requestBody := some (body ++ data)
                   bytesReceived := s.bytesReceived + data.length } p.streams
        connInWindow := p.connInWindow + data.length }, ?_, ?_, ?_⟩
    · simp [receive_data, h1, event_receive_data, hover, h2]
    · intro h
      omega
    · intro _
      exact ⟨rfl, ⟨{ s with requestBody := some (body ++ data)
                            bytesReceived := s.bytesReceived + data.length },
        dictGet_dictInsert_self streamId _ _, rfl⟩⟩

/-- Concrete stream used by the C4 witness: body limit 2, no bytes yet. -/
def sC4 : StreamSt := newStream 1 [] 2 2

/-- Concrete protocol state used by the C4 witness. -/
def pC4 : ProtocolSt :=
  { streams := [(1, sC4)]
    maxRequestSize := 2
    initialWindowSize := 2
    connInWindow := 2 }

/-- Witness for C4 at the boundary: a 3-byte body (limit + 1) is
refused, a 2-byte body (exactly the limit) is accepted. -/
theorem receive_data_body_limit_witness :
    (∃ p1, receive_data pC4 1 [5, 6, 7] = .ok p1 ∧
      (sC4.maxRequestSize < sC4.bytesReceived + ([5, 6, 7] : List Nat).length →
        p1.frames = pC4.frames ++ [Frame.rstStream 1 ErrorCode.refusedStream] ∧
        dictGet 1 p1.streams = none ∧
        p1.taskLog = pC4.taskLog ∧
        stream_complete p1 1 = .ok p1) ∧
      (sC4.bytesReceived + ([5, 6, 7] : List Nat).length ≤ sC4.maxRequestSize →
        p1.frames = pC4.frames ∧
        ∃ s1, dictGet 1 p1.streams = some s1 ∧
          s1.bytesReceived = sC4.bytesReceived + ([5, 6, 7] : List Nat).length)) ∧
    (∃ p1, receive_data pC4 1 [5, 6] = .ok p1 ∧
      (sC4.maxRequestSize < sC4.bytesReceived + ([5, 6] : List Nat).length →
        p1.frames = pC4.frames ++ [Frame.rstStream 1 ErrorCode.refusedStream] ∧
        dictGet 1 p1.streams = none ∧
        p1.taskLog = pC4.taskLog ∧
        stream_complete p1 1 = .ok p1) ∧
      (sC4.bytesReceived + ([5, 6] : List Nat).length ≤ sC4.maxRequestSize →
        p1.frames = pC4.frames ∧
        ∃ s1, dictGet 1 p1.streams = some s1 ∧
          s1.bytesReceived = sC4.bytesReceived + ([5, 6] : List Nat).length)) :=
  ⟨receive_data_body_limit pC4 1 sC4 [] [5, 6, 7] (by decide) rfl,
   receive_data_body_limit pC4 1 sC4 [] [5, 6] (by decide) rfl⟩

/-- C1: every chunk the send loop hands to the codec has size exactly
`min(window observed at that step, remaining bytes, maxOutboundFrameSize)`,
hence at most `maxOutboundFrameSize` and at most the observed window. -/
theorem send_data_chunk_bounds (maxFrame : Nat) (endStream : Bool)
    (closedAt : Nat → Bool) (windows : List Nat) (k : Nat)
    (data : List Nat) (bytesSend : Nat) (step : SendStep)
    (hmem : step ∈ (sendDataLoop maxFrame endStream closedAt windows k data bytesSend).1) :
    step.chunk.length = min step.window (min step.remaining maxFrame) ∧
    step.chunk.length ≤ maxFrame ∧ step.chunk.length ≤ step.window := by
  induction windows generalizing k data bytesSend with
  | nil => simp [sendDataLoop] at hmem
  | cons w ws ih =>
    cases data with
    | nil => simp [sendDataLoop] at hmem
    | cons d ds =>
      by_cases hcl : closedAt k
      · simp only [sendDataLoop, hcl, if_true, List.mem_singleton] at hmem
        subst hmem
        refine ⟨?_, ?_, ?_⟩ <;> simp [List.length_take]
      · simp only [sendDataLoop, hcl, Bool.false_eq_true, if_false, List.mem_cons] at hmem
        rcases hmem with h | h
        · subst h
          refine ⟨?_, ?_, ?_⟩ <;> simp [List.length_take]
        · exact ih (k + 1) _ _ h

/-- Witness for C1 at a concrete input: window 2, two bytes remaining,
frame cap 3. -/
theorem send_data_chunk_bounds_witness :
    (⟨2, 2, [9, 9], true⟩ : SendStep).chunk.length =
      min (⟨2, 2, [9, 9], true⟩ : SendStep).window
        (min (⟨2, 2, [9, 9], true⟩ : SendStep).remaining 3) ∧
    (⟨2, 2, [9, 9], true⟩ : SendStep).chunk.length ≤ 3 ∧
    (⟨2, 2, [9, 9], true⟩ : SendStep).chunk.length ≤
      (⟨2, 2, [9, 9], true⟩ : SendStep).window :=
  send_data_chunk_bounds 3 true (fun _ => false) [2] 0 [9, 9] 0
    ⟨2, 2, [9, 9], true⟩ (by decide)

/-- C2: when the codec never reports the stream closed and enough
window grants arrive (each one positive, at least one per remaining
byte, positive frame cap), the send loop consumes the whole byte
string: the concatenation of the chunks handed to the codec equals the
original data, nothing is left unsent, and the bytes-sent counter grows
by exactly the length of the data. -/
theorem send_data_round_trip (maxFrame : Nat) (endStream : Bool)
    (closedAt : Nat → Bool) (windows : List Nat) (k : Nat)
    (data : List Nat) (bytesSend : Nat)
    (hclosed : ∀ i, closedAt i = false)
    (hwin : ∀ w ∈ windows, 0 < w)
    (hframe : 0 < maxFrame)
    (hlen : data.length ≤ windows.length) :
    (((sendDataLoop maxFrame endStream closedAt windows k data bytesSend).1.map
        SendStep.chunk).flatten = data) ∧
    (sendDataLoop maxFrame endStream closedAt windows k data bytesSend).2.1 = [] ∧
    (sendDataLoop maxFrame endStream closedAt windows k data bytesSend).2.2 =
      bytesSend + data.length := by
  induction windows generalizing k data bytesSend with
  | nil =>
    have hnil : data = [] := List.length_eq_zero.mp (by simpa using hlen)
    subst hnil
    simp [sendDataLoop]
  | cons w ws ih =>
    cases data with
    | nil => simp [sendDataLoop]
    | cons d ds =>
      have hcl := hclosed k
      have hwpos : 0 < w := hwin w (List.mem_cons_self w ws)
      have hcpos : 0 < min w (min (d :: ds).length maxFrame) := by
        simp only [List.length_cons]
        omega
      have hdrop : ((d :: ds).drop (min w (min (d :: ds).length maxFrame))).length
          ≤ ws.length := by
        simp only [List.length_drop, List.length_cons] at *
        omega
      obtain ⟨ih1, ih2, ih3⟩ := ih (k + 1)
        ((d :: ds).drop (min w (min (d :: ds).length maxFrame)))
        (bytesSend + min w (min (d :: ds).length maxFrame))
        (fun v hv => hwin v (List.mem_cons_of_mem w hv)) hdrop
      simp only [sendDataLoop, hcl, Bool.false_eq_true, if_false, List.map_cons,
        List.flatten_cons]
      refine ⟨?_, ih2, ?_⟩
      · rw [show ((sendDataLoop maxFrame endStream closedAt ws (k + 1)
            ((d :: ds).drop (min w (min (d :: ds).length maxFrame)))
            (bytesSend + min w (min (d :: ds).length maxFrame))).1.map
              SendStep.chunk).flatten =
            (d :: ds).drop (min w (min (d :: ds).length maxFrame)) from ih1]
        exact List.take_append_drop _ _
      · rw [ih3]
        simp only [List.length_drop, List.length_cons]
        omega

/-- Witness for C2 at a concrete input: three one-byte windows carry a
three-byte body completely. -/
theorem send_data_round_trip_witness :
    (((sendDataLoop 3 true (fun _ => false) [1, 1, 1] 0 [4, 5, 6] 0).1.map
        SendStep.chunk).flatten = [4, 5, 6]) ∧
    (sendDataLoop 3 true (fun _ => false) [1, 1, 1] 0 [4, 5, 6] 0).2.1 = [] ∧
    (sendDataLoop 3 true (fun _ => false) [1, 1, 1] 0 [4, 5, 6] 0).2.2 =
      0 + ([4, 5, 6] : List Nat).length :=
  send_data_round_trip 3 true (fun _ => false) [1, 1, 1] 0 [4, 5, 6] 0
    (fun _ => rfl) (by decide) (by decide) (by decide)

/-- With an exception, closing the streams of the mapping sends one
`request_exception` signal per stream, whether or not it had a task. -/
theorem closeAll_signals (l : List (Nat × StreamSt)) :
    (closeAll true l).1 = l.map fun e => Signal.requestException e.2.streamId := by
  induction l with
  | nil => simp [closeAll]
  | cons e rest ih =>
    obtain ⟨k1, s1⟩ := e
    simp [closeAll, streamClose, ih]

/-- Closing the streams of the mapping cancels the task of every stream
holding a running (not-done) task. -/
theorem closeAll_cancels (l : List (Nat × StreamSt)) (streamId : Nat) (s : StreamSt)
    (hmem : (streamId, s) ∈ l) (htask : s.task = some false) :
    s.streamId ∈ (closeAll true l).2 := by
  induction l with
  | nil => simp at hmem
  | cons e rest ih =>
    rcases List.mem_cons.mp hmem with h | h
    · subst h
      simp [closeAll, streamClose, htask]
    · obtain ⟨k1, s1⟩ := e
      simp only [closeAll]
      exact List.mem_append_right _ (ih h)

/-- C8 (amended): on a transport fault (connection lost with an
exception), every stream is forcibly closed and removed from the
mapping, every running handler task is cancelled, and a
`request_exception` notification carrying the connection-loss exception
is fired for every stream in the mapping — not only for streams with an
active task. -/
theorem connection_lost_closes_everything (p : ProtocolSt) (streamId : Nat)
    (s : StreamSt) (hmem : (streamId, s) ∈ p.streams) :
    (connection_lost p true).streams = [] ∧
    Signal.requestException s.streamId ∈ (connection_lost p true).signalLog ∧
    (s.task = some false → s.streamId ∈ (connection_lost p true).cancelLog) := by
  refine ⟨rfl, ?_, ?_⟩
  · have h := closeAll_signals p.streams
    simp only [connection_lost, h]
    exact List.mem_append_right _
      (List.mem_map.mpr ⟨(streamId, s), hmem, rfl⟩)
  · intro htask
    simp only [connection_lost]
    exact List.mem_append_right _ (closeAll_cancels p.streams streamId s hmem htask)

/-- Stream used by the C8 witness: a running handler task. -/
def sC8run : StreamSt := { newStream 1 [] 4 4 with task := some false }

/-- Protocol state used by the C8 witness. -/
def pC8run : ProtocolSt :=
  { streams := [(1, sC8run)]
    maxRequestSize := 4
    initialWindowSize := 4
    connInWindow := 4 }

/-- Witness for C8 (amended) at a concrete input. -/
theorem connection_lost_closes_everything_witness :
    (connection_lost pC8run true).streams = [] ∧
    Signal.requestException sC8run.streamId ∈ (connection_lost pC8run true).signalLog ∧
    (sC8run.task = some false → sC8run.streamId ∈ (connection_lost pC8run true).cancelLog) :=
  connection_lost_closes_everything pC8run 1 sC8run (by decide)

/-- Stream used by the C8 counterexample: registered by its headers but
with no handler task (its body never completed). -/
def sC8idle : StreamSt := newStream 1 [] 4 4

/-- Protocol state used by the C8 counterexample. -/
def pC8idle : ProtocolSt :=
  { streams := [(1, sC8idle)]
    maxRequestSize := 4
    initialWindowSize := 4
    connInWindow := 4 }

/-- C8 counterexample: the claim says the request-exception notification
fires only for streams that had an active task; here a stream with no
task at all (`task = none`) still receives the notification on
connection loss. -/
theorem connection_lost_signal_without_task :
    sC8idle.task = none ∧
    Signal.requestException 1 ∈ (connection_lost pC8idle true).signalLog := by
  exact ⟨rfl, by decide⟩

/-- The `transport.close()` of `wait_shutdown` runs only at a guard
evaluation where the stream mapping is empty. -/
theorem wait_shutdown_empty_at_close :
    ∀ (obs : List (List (Nat × StreamSt))) (i : Nat),
      wait_shutdown obs = some i → obs.get? i = some []
  | [], i, h => by simp [wait_shutdown] at h
  | o :: rest, i, h => by
    by_cases ho : o.isEmpty
    · simp only [wait_shutdown, ho, if_true] at h
      obtain rfl : (0 : Nat) = i := Option.some.inj h
      simpa [List.isEmpty_iff] using ho
    · simp only [wait_shutdown, ho, Bool.false_eq_true, if_false, Option.map_eq_some'] at h
      obtain ⟨j, hj, rfl⟩ := h
      simpa using wait_shutdown_empty_at_close rest j hj

/-- Finished streaming stream lingering in the mapping (the C7 slip):
its response streamed to completion, the close in `handle_task`'s
finally-clause cleared the task slot, but `streaming` stays true and
nothing removed the stream from the mapping. -/
def sC9done : StreamSt :=
  { newStream 1 [] 4 4 with requestBody := none, streaming := true, task := none }

/-- Active streaming stream whose handler task is still running. -/
def sC9live : StreamSt :=
  { newStream 3 [] 4 4 with requestBody := none, streaming := true, task := some false }

/-- C9 failing input: a connection holding the lingering finished
stream 1 ahead of the active streaming stream 3. -/
def pC9bug : ProtocolSt :=
  { streams := [(1, sC9done), (3, sC9live)]
    maxRequestSize := 4
    initialWindowSize := 4
    connInWindow := 4
    highestInboundStreamId := 3 }

/-- C9 control input: the same connection without the lingering
stream. -/
def pC9ok : ProtocolSt :=
  { streams := [(3, sC9live)]
    maxRequestSize := 4
    initialWindowSize := 4
    connInWindow := 4
    highestInboundStreamId := 3 }

/-- C9: evaluation of the embedded code at the failing input.  With only
the active streaming stream registered, graceful shutdown cancels its
task and schedules the drain task `wait_shutdown` (which closes the
transport only at a check where the mapping is empty, see
`wait_shutdown_empty_at_close`).  But with a finished streaming stream
lingering in the mapping — a reachable state, see C7 —
`stream.task.cancel()` raises `AttributeError` on the empty task slot:
no task at all is cancelled, in particular not the active stream's, and
`wait_shutdown` is never scheduled, so the drain never closes the
transport, contrary to the claim. -/
theorem graceful_shutdown_crashes_on_lingering_stream :
    sC9done.streaming = true ∧ sC9done.task = none ∧
    sC9live.streaming = true ∧ sC9live.task = some false ∧
    (graceful_shutdown pC9ok).2 = none ∧
    (graceful_shutdown pC9ok).1.cancelLog = [3] ∧
    (graceful_shutdown pC9ok).1.waitShutdownScheduled = true ∧
    (graceful_shutdown pC9bug).2 =
      some "AttributeError: NoneType object has no attribute cancel" ∧
    (graceful_shutdown pC9bug).1.cancelLog = [] ∧
    (graceful_shutdown pC9bug).1.waitShutdownScheduled = false := by
  decide

/-- Protocol state for the C7 failing input, before the request. -/
def pC7base : ProtocolSt :=
  { maxRequestSize := 4
    initialWindowSize := 4
    connInWindow := 4 }

/-- C7 failing input, step 1: headers for stream 1 accepted. -/
def pC7headers : ProtocolSt := request_received pC7base 1 []

/-- C7 failing input, step 2: stream 1 ends, its handler task is
scheduled. -/
def pC7task : ProtocolSt := (stream_complete pC7headers 1).toOption.getD pC7base

/-- C7 failing input, step 3: the handler task completes normally; its
`finally` clause runs `Stream.close`. -/
def pC7done : ProtocolSt := handle_task_finish pC7task 1

/-- C7: evaluation of the embedded code at the failing input.  The
claim says that after a handler task completes normally its streamId is
no longer in the mapping; in the code the removal in
`BaseStream.end_stream` is commented out and `Stream.close` never pops,
so stream 1 is still registered after its task completed. -/
theorem handler_completion_keeps_stream :
    (stream_complete pC7headers 1).isOk = true ∧
    pC7task.taskLog = [1] ∧
    (dictGet 1 pC7done.streams).isSome = true := by
  exact ⟨by decide, by decide, by decide⟩

end DjangoH2
